import Mathlib

/-!
Verification of the dataset dispatch core of amazon-dsstne
(`src/amazon/dsstne/engine/NNTypes.h`).

The development shallowly embeds the attribute-driven dispatch layer of
`NNDataSet<T>`: every host-side dispatcher is translated into an executable
Lean function that returns a description of the accelerator-kernel call(s) it
would issue (kernel name plus the exact argument list), or a fatal outcome for
the log-and-exit paths.  GPU buffers are modelled by the contents of their
host-side mirror vectors; `NNFloat` scalars are modelled by an opaque integer
carrier since the dispatch layer only forwards them and never computes with
them.  The element type `T` of `NNDataSet<T>` is instantiated at `Int`: every
dispatcher below is textually identical for all `T`.
-/

/-- Carrier for `NNFloat` scalars and buffers.  The dispatch layer under
verification never performs arithmetic on floating-point values, it only
routes them to kernels, so an opaque decidable carrier is a faithful model. -/
abbrev NNFloat := Int

/-- Activation enum from NNTypes.h (lines 91-105). -/
inductive Activation where
  | Sigmoid
  | Tanh
  | RectifiedLinear
  | Linear
  | ParametricRectifiedLinear
  | SoftPlus
  | SoftSign
  | SoftMax
  | RELUMax
  | LinearMax
  | ExponentialLinear
  | LeakyRectifiedLinear
  | ScaledExponentialLinear
  deriving DecidableEq, Repr

/-- Attribute bit for `NNDataSetEnums::Attributes::Sparse`.  Modelled from the
spec: `NNEnum.h`, which defines the `Attributes` enum, is not under `src/`;
the spec describes `attributes` as a bitset over distinct bits
`{Sparse, Boolean, SparseIgnoreZero, Indexed, Weighted}`, and the upstream
enum assigns `Sparse = 1`. -/
def AttrSparse : Nat := 1

/-- Attribute bit for `NNDataSetEnums::Attributes::Boolean` (modelled from the
spec, see `AttrSparse`). -/
def AttrBoolean : Nat := 2

/-- Attribute bit for `NNDataSetEnums::Attributes::SparseIgnoreZero` (modelled
from the spec, see `AttrSparse`). -/
def AttrSparseIgnoreZero : Nat := 32

/-- Attribute bit for `NNDataSetEnums::Attributes::Indexed` (modelled from the
spec, see `AttrSparse`). -/
def AttrIndexed : Nat := 64

/-- Attribute bit for `NNDataSetEnums::Attributes::Weighted` (modelled from
the spec, see `AttrSparse`). -/
def AttrWeighted : Nat := 128

/-- Embedding of the C++ test `attributes & mask` used as a branch condition
throughout `NNTypes.h`: true exactly when the bitwise AND is non-zero. -/
def testAttr (attributes mask : Nat) : Bool :=
  attributes &&& mask != 0

/-- Embedding of `NNDataSetDimensions` (NNTypes.h lines 147-157). -/
structure NNDataSetDimensions where
  dimensions : Nat
  width : Nat
  height : Nat
  length : Nat
  deriving DecidableEq, Repr

/-- Embedding of `NNDataSetDescriptor` (NNTypes.h lines 159-185).  The
`dataType` enum lives in the absent `NNEnum.h` and is modelled as a raw
numeral; `sparseDensity` is an `NNFloat`. -/
structure NNDataSetDescriptor where
  name : String
  dataType : Nat
  attributes : Nat
  dim : NNDataSetDimensions
  examples : Nat
  sparseDensity : NNFloat
  deriving DecidableEq, Repr

/-- Embedding of the local `SUPPORTED_ATTRIBUTES` of
`NNDataSetDescriptor::isSupported` (NNTypes.h line 175).  The C++ declares
`static const vector<Attributes> SUPPORTED_ATTRIBUTES(Attributes::Sparse);`
— a sized constructor: it builds a vector of `Attributes::Sparse`-many
value-initialized elements, each equal to `(Attributes)0`, not an
initializer list containing the `Sparse` bit. -/
def SUPPORTED_ATTRIBUTES : List Nat :=
  List.replicate AttrSparse 0

/-- Embedding of `NNDataSetDescriptor::isSupported` (NNTypes.h lines
171-184): strip every listed mask present in `attributes`, then accept
exactly when nothing remains. -/
def isSupported (attributes : Nat) : Bool :=
  (SUPPORTED_ATTRIBUTES.foldl
    (fun attributes mask =>
      if testAttr attributes mask then attributes - mask else attributes)
    attributes) == 0

/-- Modelled from the spec: the body of `createNNDataSet` lives in a source
file that is not under `src/`; only its declaration and doc comment
(NNTypes.h lines 187-195) are present.  The doc comment states that only
attribute sets accepted by `NNDataSetDescriptor::isSupported` are valid and
that any other attributes cause a `std::runtime_error` to be thrown, with no
object returned. -/
def createNNDataSet (descriptor : NNDataSetDescriptor) :
    Except String NNDataSetDescriptor :=
  if isSupported descriptor.attributes then
    Except.ok descriptor
  else
    Except.error "std::runtime_error"

/-- Helper lemma: the masks in `SUPPORTED_ATTRIBUTES` are all zero, and
stripping a zero mask never changes the accumulator, so the fold is the
identity. -/
theorem supported_fold_id (attributes : Nat) :
    (SUPPORTED_ATTRIBUTES.foldl
      (fun attributes mask =>
        if testAttr attributes mask then attributes - mask else attributes)
      attributes) = attributes := by
  simp [SUPPORTED_ATTRIBUTES, AttrSparse, testAttr]

/-- Descriptor whose attribute bitset contains exactly the `Sparse` bit, the
combination that the comment above `isSupported` ("Only support vanilla
sparse and dense datasets for now") announces as supported. -/
def sparseOnlyDescriptor : NNDataSetDescriptor :=
  { name := "ds"
    dataType := 0
    attributes := AttrSparse
    dim := { dimensions := 1, width := 4, height := 1, length := 1 }
    examples := 2
    sparseDensity := 1 }

/-- C2: `NNDataSetDescriptor::isSupported(attributes)` returns true if and
only if `attributes == 0`: the sized-vector construction
`vector<Attributes>(Attributes::Sparse)` produces only zero-valued masks, so
every non-empty attribute bitset — including one containing only the
`Sparse` bit, which the accompanying comment says is supported — is
rejected. -/
theorem C2_isSupported_iff_zero :
    (∀ attributes : Nat, isSupported attributes = true ↔ attributes = 0) ∧
    isSupported AttrSparse = false := by
  constructor
  · intro attributes
    rw [isSupported, supported_fold_id]
    exact beq_iff_eq
  · decide

/-- C1: the claim states that `createNNDataSet` accepts every descriptor
whose attributes are a combination of only the Sparse, Indexed and Weighted
bits.  The code rejects the Sparse-only combination: `isSupported` strips
only zero-valued masks (sized-vector construction slip), so it returns false
on `Attributes::Sparse`, contradicting its own comment "Only support vanilla
sparse and dense datasets for now", and `createNNDataSet` — whose doc
comment defers validity exactly to `isSupported` — therefore throws on a
Sparse-only descriptor instead of returning an object. -/
theorem C1_sparse_only_descriptor_rejected :
    isSupported AttrSparse = false ∧
    createNNDataSet sparseOnlyDescriptor = Except.error "std::runtime_error" := by
  constructor
  · decide
  · rfl

/-- Argument of an accelerator-kernel call as issued by a dispatcher.
Device pointers are modelled by the contents of the host-side mirror vector
they point to (`natBuf` for `uint64_t`/`uint32_t` buffers, `floatBuf` for
`NNFloat` buffers, `tBuf` for element-type `T` buffers), `nullPtr` models a
`NULL` pointer argument, and the scalar constructors model the scalar
parameters. -/
inductive KArg where
  | nat (n : Nat)
  | float (x : NNFloat)
  | bool (b : Bool)
  | act (a : Activation)
  | natBuf (xs : List Nat)
  | floatBuf (xs : List NNFloat)
  | tBuf (xs : List Int)
  | nullPtr
  deriving DecidableEq, Repr

/-- One accelerator-kernel invocation: the kernel's name and its full
argument list in call order. -/
structure KernelCall where
  kernel : String
  args : List KArg
  deriving DecidableEq, Repr

/-- Outcome of one dispatcher invocation: either the list of kernel calls it
issues (in order), or the fatal log-and-exit path (`cout << msg;
getGpu().Shutdown(); exit(-1);`). -/
inductive DispatchResult where
  | calls (cs : List KernelCall)
  | fatal (msg : String)
  deriving DecidableEq, Repr

/-- Embedding of the state of `NNDataSet<T>` (NNTypes.h lines 197-476) that
the dispatchers read: the attribute bitset, the host mirrors of the device
buffers, the dirty flag, the last-built transposed batch size `_batch`, and
the feature width.  The element type `T` is instantiated at `Int`. -/
structure NNDataSet where
  attributes : Nat
  width : Nat
  vData : List Int
  vSparseStart : List Nat
  vSparseEnd : List Nat
  vSparseIndex : List Nat
  vSparseData : List Int
  vDataWeight : List NNFloat
  vIndex : List Nat
  vDenoisingRandom : List NNFloat
  vSparseTransposedStart : List Nat
  vSparseTransposedEnd : List Nat
  vSparseTransposedIndex : List Nat
  vSparseTransposedData : List NNFloat
  bDirty : Bool
  batch : Nat
  deriving DecidableEq, Repr

/-- Embedding of the local
`NNFloat* pDataWeight = (_attributes & NNDataSetEnums::Weighted) ? _pbDataWeight->_pDevData : NULL;`
computed at the top of almost every dispatcher. -/
def pDataWeightArg (ds : NNDataSet) : KArg :=
  if testAttr ds.attributes AttrWeighted then KArg.floatBuf ds.vDataWeight
  else KArg.nullPtr

/-- Embedding of `NNDataSet<T>::CalculateL1Error` (NNTypes.h lines 651-711). -/
def CalculateL1Error (ds : NNDataSet) (position batch stride : Nat)
    (pUnit : List NNFloat) : DispatchResult :=
  let pDataWeight := pDataWeightArg ds
  if testAttr ds.attributes AttrSparse then
    let bSparseIgnoreZero := testAttr ds.attributes AttrSparseIgnoreZero
    if testAttr ds.attributes AttrBoolean then
      if testAttr ds.attributes AttrIndexed then
        DispatchResult.calls [⟨"kCalculateIndexedSparseL1Error",
          [KArg.nat position, KArg.nat batch, KArg.nat stride,
           KArg.floatBuf pUnit, KArg.natBuf ds.vIndex,
           KArg.natBuf ds.vSparseStart, KArg.natBuf ds.vSparseEnd,
           KArg.natBuf ds.vSparseIndex, pDataWeight,
           KArg.bool bSparseIgnoreZero]⟩]
      else
        DispatchResult.calls [⟨"kCalculateSparseL1Error",
          [KArg.nat position, KArg.nat batch, KArg.nat stride,
           KArg.floatBuf pUnit,
           KArg.natBuf ds.vSparseStart, KArg.natBuf ds.vSparseEnd,
           KArg.natBuf ds.vSparseIndex, pDataWeight,
           KArg.bool bSparseIgnoreZero]⟩]
    else
      if testAttr ds.attributes AttrIndexed then
        DispatchResult.calls [⟨"kCalculateIndexedSparseAnalogL1Error",
          [KArg.nat position, KArg.nat batch, KArg.nat stride,
           KArg.floatBuf pUnit, KArg.natBuf ds.vIndex,
           KArg.natBuf ds.vSparseStart, KArg.natBuf ds.vSparseEnd,
           KArg.natBuf ds.vSparseIndex, pDataWeight,
           KArg.tBuf ds.vSparseData, KArg.bool bSparseIgnoreZero]⟩]
      else
        DispatchResult.calls [⟨"kCalculateSparseAnalogL1Error",
          [KArg.nat position, KArg.nat batch, KArg.nat stride,
           KArg.floatBuf pUnit,
           KArg.natBuf ds.vSparseStart, KArg.natBuf ds.vSparseEnd,
           KArg.natBuf ds.vSparseIndex, pDataWeight,
           KArg.tBuf ds.vSparseData, KArg.bool bSparseIgnoreZero]⟩]
  else
    if testAttr ds.attributes AttrIndexed then
      DispatchResult.calls [⟨"kCalculateIndexedL1Error",
        [KArg.nat position, KArg.nat batch, KArg.nat stride,
         KArg.floatBuf pUnit, KArg.natBuf ds.vIndex, KArg.tBuf ds.vData,
         pDataWeight]⟩]
    else
      DispatchResult.calls [⟨"kCalculateL1Error",
        [KArg.nat position, KArg.nat batch, KArg.nat stride,
         KArg.floatBuf pUnit, KArg.tBuf ds.vData, pDataWeight]⟩]

/-- Embedding of `NNDataSet<T>::CalculateL2Error` (NNTypes.h lines 713-773). -/
def CalculateL2Error (ds : NNDataSet) (position batch stride : Nat)
    (pUnit : List NNFloat) : DispatchResult :=
  let pDataWeight := pDataWeightArg ds
  if testAttr ds.attributes AttrSparse then
    let bSparseIgnoreZero := testAttr ds.attributes AttrSparseIgnoreZero
    if testAttr ds.attributes AttrBoolean then
      if testAttr ds.attributes AttrIndexed then
        DispatchResult.calls [⟨"kCalculateIndexedSparseL2Error",
          [KArg.nat position, KArg.nat batch, KArg.nat stride,
           KArg.floatBuf pUnit, KArg.natBuf ds.vIndex,
           KArg.natBuf ds.vSparseStart, KArg.natBuf ds.vSparseEnd,
           KArg.natBuf ds.vSparseIndex, pDataWeight,
           KArg.bool bSparseIgnoreZero]⟩]
      else
        DispatchResult.calls [⟨"kCalculateSparseL2Error",
          [KArg.nat position, KArg.nat batch, KArg.nat stride,
           KArg.floatBuf pUnit,
           KArg.natBuf ds.vSparseStart, KArg.natBuf ds.vSparseEnd,
           KArg.natBuf ds.vSparseIndex, pDataWeight,
           KArg.bool bSparseIgnoreZero]⟩]
    else
      if testAttr ds.attributes AttrIndexed then
        DispatchResult.calls [⟨"kCalculateIndexedSparseAnalogL2Error",
          [KArg.nat position, KArg.nat batch, KArg.nat stride,
           KArg.floatBuf pUnit, KArg.natBuf ds.vIndex,
           KArg.natBuf ds.vSparseStart, KArg.natBuf ds.vSparseEnd,
           KArg.natBuf ds.vSparseIndex, pDataWeight,
           KArg.tBuf ds.vSparseData, KArg.bool bSparseIgnoreZero]⟩]
      else
        DispatchResult.calls [⟨"kCalculateSparseAnalogL2Error",
          [KArg.nat position, KArg.nat batch, KArg.nat stride,
           KArg.floatBuf pUnit,
           KArg.natBuf ds.vSparseStart, KArg.natBuf ds.vSparseEnd,
           KArg.natBuf ds.vSparseIndex, pDataWeight,
           KArg.tBuf ds.vSparseData, KArg.bool bSparseIgnoreZero]⟩]
  else
    if testAttr ds.attributes AttrIndexed then
      DispatchResult.calls [⟨"kCalculateIndexedL2Error",
        [KArg.nat position, KArg.nat batch, KArg.nat stride,
         KArg.floatBuf pUnit, KArg.natBuf ds.vIndex, KArg.tBuf ds.vData,
         pDataWeight]⟩]
    else
      DispatchResult.calls [⟨"kCalculateL2Error",
        [KArg.nat position, KArg.nat batch, KArg.nat stride,
         KArg.floatBuf pUnit, KArg.tBuf ds.vData, pDataWeight]⟩]

/-- Embedding of `NNDataSet<T>::CalculateL2HingeError` (NNTypes.h lines
778-838). -/
def CalculateL2HingeError (ds : NNDataSet) (position batch stride : Nat)
    (pUnit : List NNFloat) : DispatchResult :=
  let pDataWeight := pDataWeightArg ds
  if testAttr ds.attributes AttrSparse then
    let bSparseIgnoreZero := testAttr ds.attributes AttrSparseIgnoreZero
    if testAttr ds.attributes AttrBoolean then
      if testAttr ds.attributes AttrIndexed then
        DispatchResult.calls [⟨"kCalculateIndexedSparseL2HingeError",
          [KArg.nat position, KArg.nat batch, KArg.nat stride,
           KArg.floatBuf pUnit, KArg.natBuf ds.vIndex,
           KArg.natBuf ds.vSparseStart, KArg.natBuf ds.vSparseEnd,
           KArg.natBuf ds.vSparseIndex, pDataWeight,
           KArg.bool bSparseIgnoreZero]⟩]
      else
        DispatchResult.calls [⟨"kCalculateSparseL2HingeError",
          [KArg.nat position, KArg.nat batch, KArg.nat stride,
           KArg.floatBuf pUnit,
           KArg.natBuf ds.vSparseStart, KArg.natBuf ds.vSparseEnd,
           KArg.natBuf ds.vSparseIndex, pDataWeight,
           KArg.bool bSparseIgnoreZero]⟩]
    else
      if testAttr ds.attributes AttrIndexed then
        DispatchResult.calls [⟨"kCalculateIndexedSparseAnalogL2HingeError",
          [KArg.nat position, KArg.nat batch, KArg.nat stride,
           KArg.floatBuf pUnit, KArg.natBuf ds.vIndex,
           KArg.natBuf ds.vSparseStart, KArg.natBuf ds.vSparseEnd,
           KArg.natBuf ds.vSparseIndex, pDataWeight,
           KArg.tBuf ds.vSparseData, KArg.bool bSparseIgnoreZero]⟩]
      else
        DispatchResult.calls [⟨"kCalculateSparseAnalogL2HingeError",
          [KArg.nat position, KArg.nat batch, KArg.nat stride,
           KArg.floatBuf pUnit,
           KArg.natBuf ds.vSparseStart, KArg.natBuf ds.vSparseEnd,
           KArg.natBuf ds.vSparseIndex, pDataWeight,
           KArg.tBuf ds.vSparseData, KArg.bool bSparseIgnoreZero]⟩]
  else
    if testAttr ds.attributes AttrIndexed then
      DispatchResult.calls [⟨"kCalculateIndexedL2HingeError",
        [KArg.nat position, KArg.nat batch, KArg.nat stride,
         KArg.floatBuf pUnit, KArg.natBuf ds.vIndex, KArg.tBuf ds.vData,
         pDataWeight]⟩]
    else
      DispatchResult.calls [⟨"kCalculateL2HingeError",
        [KArg.nat position, KArg.nat batch, KArg.nat stride,
         KArg.floatBuf pUnit, KArg.tBuf ds.vData, pDataWeight]⟩]

/-- Embedding of `NNDataSet<T>::CalculateCrossEntropyError` (NNTypes.h lines
840-873).  The sparse path does not branch on the Boolean bit. -/
def CalculateCrossEntropyError (ds : NNDataSet) (position batch stride : Nat)
    (pUnit : List NNFloat) : DispatchResult :=
  let pDataWeight := pDataWeightArg ds
  if testAttr ds.attributes AttrSparse then
    let bSparseIgnoreZero := testAttr ds.attributes AttrSparseIgnoreZero
    if testAttr ds.attributes AttrIndexed then
      DispatchResult.calls [⟨"kCalculateIndexedSparseCrossEntropyError",
        [KArg.nat position, KArg.nat batch, KArg.nat stride,
         KArg.floatBuf pUnit, KArg.natBuf ds.vIndex,
         KArg.natBuf ds.vSparseStart, KArg.natBuf ds.vSparseEnd,
         KArg.natBuf ds.vSparseIndex, pDataWeight,
         KArg.bool bSparseIgnoreZero]⟩]
    else
      DispatchResult.calls [⟨"kCalculateSparseCrossEntropyError",
        [KArg.nat position, KArg.nat batch, KArg.nat stride,
         KArg.floatBuf pUnit,
         KArg.natBuf ds.vSparseStart, KArg.natBuf ds.vSparseEnd,
         KArg.natBuf ds.vSparseIndex, pDataWeight,
         KArg.bool bSparseIgnoreZero]⟩]
  else
    if testAttr ds.attributes AttrIndexed then
      DispatchResult.calls [⟨"kCalculateIndexedCrossEntropyError",
        [KArg.nat position, KArg.nat batch, KArg.nat stride,
         KArg.floatBuf pUnit, KArg.natBuf ds.vIndex, KArg.tBuf ds.vData,
         pDataWeight]⟩]
    else
      DispatchResult.calls [⟨"kCalculateCrossEntropyError",
        [KArg.nat position, KArg.nat batch, KArg.nat stride,
         KArg.floatBuf pUnit, KArg.tBuf ds.vData, pDataWeight]⟩]

/-- Embedding of `NNDataSet<T>::CalculateScaledMarginalCrossEntropyError`
(NNTypes.h lines 875-908).  The sparse path does not branch on the Boolean
bit. -/
def CalculateScaledMarginalCrossEntropyError (ds : NNDataSet)
    (position batch stride : Nat) (pUnit : List NNFloat) : DispatchResult :=
  let pDataWeight := pDataWeightArg ds
  if testAttr ds.attributes AttrSparse then
    let bSparseIgnoreZero := testAttr ds.attributes AttrSparseIgnoreZero
    if testAttr ds.attributes AttrIndexed then
      DispatchResult.calls
        [⟨"kCalculateIndexedSparseScaledMarginalCrossEntropyError",
        [KArg.nat position, KArg.nat batch, KArg.nat stride,
         KArg.floatBuf pUnit, KArg.natBuf ds.vIndex,
         KArg.natBuf ds.vSparseStart, KArg.natBuf ds.vSparseEnd,
         KArg.natBuf ds.vSparseIndex, pDataWeight,
         KArg.bool bSparseIgnoreZero]⟩]
    else
      DispatchResult.calls
        [⟨"kCalculateSparseScaledMarginalCrossEntropyError",
        [KArg.nat position, KArg.nat batch, KArg.nat stride,
         KArg.floatBuf pUnit,
         KArg.natBuf ds.vSparseStart, KArg.natBuf ds.vSparseEnd,
         KArg.natBuf ds.vSparseIndex, pDataWeight,
         KArg.bool bSparseIgnoreZero]⟩]
  else
    if testAttr ds.attributes AttrIndexed then
      DispatchResult.calls
        [⟨"kCalculateIndexedScaledMarginalCrossEntropyError",
        [KArg.nat position, KArg.nat batch, KArg.nat stride,
         KArg.floatBuf pUnit, KArg.natBuf ds.vIndex, KArg.tBuf ds.vData,
         pDataWeight]⟩]
    else
      DispatchResult.calls
        [⟨"kCalculateScaledMarginalCrossEntropyError",
        [KArg.nat position, KArg.nat batch, KArg.nat stride,
         KArg.floatBuf pUnit, KArg.tBuf ds.vData, pDataWeight]⟩]

/-- Embedding of `NNDataSet<T>::CalculateDataScaledMarginalCrossEntropyError`
(NNTypes.h lines 1024-1079).  The Boolean sparse branch reuses the plain
scaled-marginal kernels ("Scale by 1 if data is Boolean"); the analog branch
calls the data-scaled kernels and passes no weight buffer; the dense branch
is the log-and-exit path. -/
def CalculateDataScaledMarginalCrossEntropyError (ds : NNDataSet)
    (position batch stride : Nat) (pUnit : List NNFloat) : DispatchResult :=
  let pDataWeight := pDataWeightArg ds
  if testAttr ds.attributes AttrSparse then
    let bSparseIgnoreZero := testAttr ds.attributes AttrSparseIgnoreZero
    if testAttr ds.attributes AttrBoolean then
      if testAttr ds.attributes AttrIndexed then
        DispatchResult.calls
          [⟨"kCalculateIndexedSparseScaledMarginalCrossEntropyError",
          [KArg.nat position, KArg.nat batch, KArg.nat stride,
           KArg.floatBuf pUnit, KArg.natBuf ds.vIndex,
           KArg.natBuf ds.vSparseStart, KArg.natBuf ds.vSparseEnd,
           KArg.natBuf ds.vSparseIndex, pDataWeight,
           KArg.bool bSparseIgnoreZero]⟩]
      else
        DispatchResult.calls
          [⟨"kCalculateSparseScaledMarginalCrossEntropyError",
          [KArg.nat position, KArg.nat batch, KArg.nat stride,
           KArg.floatBuf pUnit,
           KArg.natBuf ds.vSparseStart, KArg.natBuf ds.vSparseEnd,
           KArg.natBuf ds.vSparseIndex, pDataWeight,
           KArg.bool bSparseIgnoreZero]⟩]
    else
      if testAttr ds.attributes AttrIndexed then
        DispatchResult.calls
          [⟨"kCalculateIndexedSparseDataScaledMarginalCrossEntropyError",
          [KArg.nat position, KArg.nat batch, KArg.nat stride,
           KArg.floatBuf pUnit, KArg.natBuf ds.vIndex,
           KArg.natBuf ds.vSparseStart, KArg.natBuf ds.vSparseEnd,
           KArg.natBuf ds.vSparseIndex, KArg.tBuf ds.vSparseData,
           KArg.bool bSparseIgnoreZero]⟩]
      else
        DispatchResult.calls
          [⟨"kCalculateSparseDataScaledMarginalCrossEntropyError",
          [KArg.nat position, KArg.nat batch, KArg.nat stride,
           KArg.floatBuf pUnit,
           KArg.natBuf ds.vSparseStart, KArg.natBuf ds.vSparseEnd,
           KArg.natBuf ds.vSparseIndex, KArg.tBuf ds.vSparseData,
           KArg.bool bSparseIgnoreZero]⟩]
  else
    DispatchResult.fatal "unsupported data format of this cost function"

/-- Embedding of `NNDataSet<T>::CalculateHingeError` (NNTypes.h lines
1081-1088).  The function never inspects the Sparse bit: it branches on the
Indexed bit only and always reads the dense data buffer `_pbData`. -/
def CalculateHingeError (ds : NNDataSet) (position batch stride : Nat)
    (pUnit : List NNFloat) : DispatchResult :=
  let pDataWeight := pDataWeightArg ds
  if testAttr ds.attributes AttrIndexed then
    DispatchResult.calls [⟨"kCalculateIndexedHingeError",
      [KArg.nat position, KArg.nat batch, KArg.nat stride,
       KArg.floatBuf pUnit, KArg.natBuf ds.vIndex, KArg.tBuf ds.vData,
       pDataWeight]⟩]
  else
    DispatchResult.calls [⟨"kCalculateHingeError",
      [KArg.nat position, KArg.nat batch, KArg.nat stride,
       KArg.floatBuf pUnit, KArg.tBuf ds.vData, pDataWeight]⟩]

/-- Embedding of `NNDataSet<T>::CalculateL1OutputDelta` (NNTypes.h lines
1090-1109).  The sparse path does not branch on the Boolean bit. -/
def CalculateL1OutputDelta (ds : NNDataSet) (activation : Activation)
    (position batch stride : Nat) (pUnit pDelta : List NNFloat)
    (slope alpha lambda : NNFloat) : DispatchResult :=
  let pDataWeight := pDataWeightArg ds
  if testAttr ds.attributes AttrSparse then
    let bSparseIgnoreZero := testAttr ds.attributes AttrSparseIgnoreZero
    if testAttr ds.attributes AttrIndexed then
      DispatchResult.calls [⟨"kCalculateIndexedSparseL1OutputDelta",
        [KArg.act activation, KArg.nat position, KArg.nat batch,
         KArg.nat stride, KArg.floatBuf pUnit, KArg.floatBuf pDelta,
         KArg.natBuf ds.vIndex, KArg.natBuf ds.vSparseStart,
         KArg.natBuf ds.vSparseEnd, KArg.natBuf ds.vSparseIndex,
         pDataWeight, KArg.bool bSparseIgnoreZero,
         KArg.float slope, KArg.float alpha, KArg.float lambda]⟩]
    else
      DispatchResult.calls [⟨"kCalculateSparseL1OutputDelta",
        [KArg.act activation, KArg.nat position, KArg.nat batch,
         KArg.nat stride, KArg.floatBuf pUnit, KArg.floatBuf pDelta,
         KArg.natBuf ds.vSparseStart,
         KArg.natBuf ds.vSparseEnd, KArg.natBuf ds.vSparseIndex,
         pDataWeight, KArg.bool bSparseIgnoreZero,
         KArg.float slope, KArg.float alpha, KArg.float lambda]⟩]
  else
    if testAttr ds.attributes AttrIndexed then
      DispatchResult.calls [⟨"kCalculateIndexedL1OutputDelta",
        [KArg.act activation, KArg.nat position, KArg.nat batch,
         KArg.nat stride, KArg.floatBuf pUnit, KArg.floatBuf pDelta,
         KArg.natBuf ds.vIndex, KArg.tBuf ds.vData, pDataWeight,
         KArg.float slope, KArg.float alpha, KArg.float lambda]⟩]
    else
      DispatchResult.calls [⟨"kCalculateL1OutputDelta",
        [KArg.act activation, KArg.nat position, KArg.nat batch,
         KArg.nat stride, KArg.floatBuf pUnit, KArg.floatBuf pDelta,
         KArg.tBuf ds.vData, pDataWeight,
         KArg.float slope, KArg.float alpha, KArg.float lambda]⟩]

/-- Embedding of `NNDataSet<T>::CalculateOutputDelta` (NNTypes.h lines
1154-1182), the generic output-delta dispatcher. -/
def CalculateOutputDelta (ds : NNDataSet) (activation : Activation)
    (position batch stride : Nat) (pUnit pDelta : List NNFloat)
    (slope alpha lambda : NNFloat) : DispatchResult :=
  let pDataWeight := pDataWeightArg ds
  if testAttr ds.attributes AttrSparse then
    let bSparseIgnoreZero := testAttr ds.attributes AttrSparseIgnoreZero
    if testAttr ds.attributes AttrBoolean then
      if testAttr ds.attributes AttrIndexed then
        DispatchResult.calls [⟨"kCalculateIndexedSparseOutputDelta",
          [KArg.act activation, KArg.nat position, KArg.nat batch,
           KArg.nat stride, KArg.floatBuf pUnit, KArg.floatBuf pDelta,
           KArg.natBuf ds.vIndex, KArg.natBuf ds.vSparseStart,
           KArg.natBuf ds.vSparseEnd, KArg.natBuf ds.vSparseIndex,
           pDataWeight, KArg.bool bSparseIgnoreZero,
           KArg.float slope, KArg.float alpha, KArg.float lambda]⟩]
      else
        DispatchResult.calls [⟨"kCalculateSparseOutputDelta",
          [KArg.act activation, KArg.nat position, KArg.nat batch,
           KArg.nat stride, KArg.floatBuf pUnit, KArg.floatBuf pDelta,
           KArg.natBuf ds.vSparseStart,
           KArg.natBuf ds.vSparseEnd, KArg.natBuf ds.vSparseIndex,
           pDataWeight, KArg.bool bSparseIgnoreZero,
           KArg.float slope, KArg.float alpha, KArg.float lambda]⟩]
    else
      if testAttr ds.attributes AttrIndexed then
        DispatchResult.calls [⟨"kCalculateIndexedSparseAnalogOutputDelta",
          [KArg.act activation, KArg.nat position, KArg.nat batch,
           KArg.nat stride, KArg.floatBuf pUnit, KArg.floatBuf pDelta,
           KArg.natBuf ds.vIndex, KArg.natBuf ds.vSparseStart,
           KArg.natBuf ds.vSparseEnd, KArg.natBuf ds.vSparseIndex,
           pDataWeight, KArg.tBuf ds.vSparseData,
           KArg.bool bSparseIgnoreZero,
           KArg.float slope, KArg.float alpha, KArg.float lambda]⟩]
      else
        DispatchResult.calls [⟨"kCalculateSparseAnalogOutputDelta",
          [KArg.act activation, KArg.nat position, KArg.nat batch,
           KArg.nat stride, KArg.floatBuf pUnit, KArg.floatBuf pDelta,
           KArg.natBuf ds.vSparseStart,
           KArg.natBuf ds.vSparseEnd, KArg.natBuf ds.vSparseIndex,
           pDataWeight, KArg.tBuf ds.vSparseData,
           KArg.bool bSparseIgnoreZero,
           KArg.float slope, KArg.float alpha, KArg.float lambda]⟩]
  else
    if testAttr ds.attributes AttrIndexed then
      DispatchResult.calls [⟨"kCalculateIndexedOutputDelta",
        [KArg.act activation, KArg.nat position, KArg.nat batch,
         KArg.nat stride, KArg.floatBuf pUnit, KArg.floatBuf pDelta,
         KArg.natBuf ds.vIndex, KArg.tBuf ds.vData, pDataWeight,
         KArg.float slope, KArg.float alpha, KArg.float lambda]⟩]
    else
      DispatchResult.calls [⟨"kCalculateOutputDelta",
        [KArg.act activation, KArg.nat position, KArg.nat batch,
         KArg.nat stride, KArg.floatBuf pUnit, KArg.floatBuf pDelta,
         KArg.tBuf ds.vData, pDataWeight,
         KArg.float slope, KArg.float alpha, KArg.float lambda]⟩]

/-- Embedding of `NNDataSet<T>::CalculateL2HingeOutputDelta` (NNTypes.h
lines 1185-1213). -/
def CalculateL2HingeOutputDelta (ds : NNDataSet) (activation : Activation)
    (position batch stride : Nat) (pUnit pDelta : List NNFloat)
    (slope alpha lambda : NNFloat) : DispatchResult :=
  let pDataWeight := pDataWeightArg ds
  if testAttr ds.attributes AttrSparse then
    let bSparseIgnoreZero := testAttr ds.attributes AttrSparseIgnoreZero
    if testAttr ds.attributes AttrBoolean then
      if testAttr ds.attributes AttrIndexed then
        DispatchResult.calls [⟨"kCalculateIndexedSparseL2HingeOutputDelta",
          [KArg.act activation, KArg.nat position, KArg.nat batch,
           KArg.nat stride, KArg.floatBuf pUnit, KArg.floatBuf pDelta,
           KArg.natBuf ds.vIndex, KArg.natBuf ds.vSparseStart,
           KArg.natBuf ds.vSparseEnd, KArg.natBuf ds.vSparseIndex,
           pDataWeight, KArg.bool bSparseIgnoreZero,
           KArg.float slope, KArg.float alpha, KArg.float lambda]⟩]
      else
        DispatchResult.calls [⟨"kCalculateSparseL2HingeOutputDelta",
          [KArg.act activation, KArg.nat position, KArg.nat batch,
           KArg.nat stride, KArg.floatBuf pUnit, KArg.floatBuf pDelta,
           KArg.natBuf ds.vSparseStart,
           KArg.natBuf ds.vSparseEnd, KArg.natBuf ds.vSparseIndex,
           pDataWeight, KArg.bool bSparseIgnoreZero,
           KArg.float slope, KArg.float alpha, KArg.float lambda]⟩]
    else
      if testAttr ds.attributes AttrIndexed then
        DispatchResult.calls
          [⟨"kCalculateIndexedSparseAnalogL2HingeOutputDelta",
          [KArg.act activation, KArg.nat position, KArg.nat batch,
           KArg.nat stride, KArg.floatBuf pUnit, KArg.floatBuf pDelta,
           KArg.natBuf ds.vIndex, KArg.natBuf ds.vSparseStart,
           KArg.natBuf ds.vSparseEnd, KArg.natBuf ds.vSparseIndex,
           pDataWeight, KArg.tBuf ds.vSparseData,
           KArg.bool bSparseIgnoreZero,
           KArg.float slope, KArg.float alpha, KArg.float lambda]⟩]
      else
        DispatchResult.calls [⟨"kCalculateSparseAnalogL2HingeOutputDelta",
          [KArg.act activation, KArg.nat position, KArg.nat batch,
           KArg.nat stride, KArg.floatBuf pUnit, KArg.floatBuf pDelta,
           KArg.natBuf ds.vSparseStart,
           KArg.natBuf ds.vSparseEnd, KArg.natBuf ds.vSparseIndex,
           pDataWeight, KArg.tBuf ds.vSparseData,
           KArg.bool bSparseIgnoreZero,
           KArg.float slope, KArg.float alpha, KArg.float lambda]⟩]
  else
    if testAttr ds.attributes AttrIndexed then
      DispatchResult.calls [⟨"kCalculateIndexedL2HingeOutputDelta",
        [KArg.act activation, KArg.nat position, KArg.nat batch,
         KArg.nat stride, KArg.floatBuf pUnit, KArg.floatBuf pDelta,
         KArg.natBuf ds.vIndex, KArg.tBuf ds.vData, pDataWeight,
         KArg.float slope, KArg.float alpha, KArg.float lambda]⟩]
    else
      DispatchResult.calls [⟨"kCalculateL2HingeOutputDelta",
        [KArg.act activation, KArg.nat position, KArg.nat batch,
         KArg.nat stride, KArg.floatBuf pUnit, KArg.floatBuf pDelta,
         KArg.tBuf ds.vData, pDataWeight,
         KArg.float slope, KArg.float alpha, KArg.float lambda]⟩]

/-- Embedding of
`NNDataSet<T>::CalculateDataScaledMarginalCrossEntropyOutputDelta`
(NNTypes.h lines 1215-1241).  No `pDataWeight` local is computed and no
weight buffer is passed; the sparse path does not branch on the Boolean bit;
the dense branch is the log-and-exit path. -/
def CalculateDataScaledMarginalCrossEntropyOutputDelta (ds : NNDataSet)
    (activation : Activation) (position batch stride : Nat)
    (pUnit pDelta : List NNFloat) : DispatchResult :=
  if testAttr ds.attributes AttrSparse then
    let bSparseIgnoreZero := testAttr ds.attributes AttrSparseIgnoreZero
    if testAttr ds.attributes AttrIndexed then
      DispatchResult.calls
        [⟨"kCalculateIndexedSparseDataScaledMarginalCrossEntropyOutputDelta",
        [KArg.act activation, KArg.nat position, KArg.nat batch,
         KArg.nat stride, KArg.floatBuf pUnit, KArg.floatBuf pDelta,
         KArg.natBuf ds.vIndex, KArg.natBuf ds.vSparseStart,
         KArg.natBuf ds.vSparseEnd, KArg.natBuf ds.vSparseIndex,
         KArg.tBuf ds.vSparseData, KArg.bool bSparseIgnoreZero]⟩]
    else
      DispatchResult.calls
        [⟨"kCalculateSparseDataScaledMarginalCrossEntropyOutputDelta",
        [KArg.act activation, KArg.nat position, KArg.nat batch,
         KArg.nat stride, KArg.floatBuf pUnit, KArg.floatBuf pDelta,
         KArg.natBuf ds.vSparseStart,
         KArg.natBuf ds.vSparseEnd, KArg.natBuf ds.vSparseIndex,
         KArg.tBuf ds.vSparseData, KArg.bool bSparseIgnoreZero]⟩]
  else
    DispatchResult.fatal "unsupported data format of this cost function"

/-- Embedding of `NNDataSet<T>::CalculateHingeOutputDelta` (NNTypes.h lines
1243-1251).  Like `CalculateHingeError`, the function never inspects the
Sparse bit: it branches on the Indexed bit only and always reads the dense
data buffer `_pbData`. -/
def CalculateHingeOutputDelta (ds : NNDataSet) (activation : Activation)
    (position batch stride : Nat) (pUnit pDelta : List NNFloat) :
    DispatchResult :=
  let pDataWeight := pDataWeightArg ds
  if testAttr ds.attributes AttrIndexed then
    DispatchResult.calls [⟨"kCalculateIndexedHingeOutputDelta",
      [KArg.act activation, KArg.nat position, KArg.nat batch,
       KArg.nat stride, KArg.floatBuf pUnit, KArg.floatBuf pDelta,
       KArg.natBuf ds.vIndex, KArg.tBuf ds.vData, pDataWeight]⟩]
  else
    DispatchResult.calls [⟨"kCalculateHingeOutputDelta",
      [KArg.act activation, KArg.nat position, KArg.nat batch,
       KArg.nat stride, KArg.floatBuf pUnit, KArg.floatBuf pDelta,
       KArg.tBuf ds.vData, pDataWeight]⟩]

/-- Modelled from the spec: the body of
`NNDataSet<T>::CalculateSparseDatapointCounts` lives in a source file not
present under `src/`.  The spec (§4.4 step 1) describes it as accumulating
per-feature datapoint counts from the row-major sparse structure. -/
def CalculateSparseDatapointCounts (ds : NNDataSet) : List Nat :=
  (List.range ds.width).map (fun f => ds.vSparseIndex.count f)

/-- Modelled from the spec: the body of
`NNDataSet<T>::GenerateSparseTransposedMatrix` lives in a source file not
present under `src/`.  The spec (§4.4 step 1 and §5) describes it as
rebuilding `transposedStart[]` as a prefix sum of the per-feature datapoint
counts, recording the built batch size and clearing the dirty flag. -/
def GenerateSparseTransposedMatrix (ds : NNDataSet) (batch : Nat) :
    NNDataSet :=
  let counts := CalculateSparseDatapointCounts ds
  { ds with
    vSparseTransposedStart :=
      (List.range counts.length).map (fun i => (counts.take i).sum)
    batch := batch
    bDirty := false }

/-- Result of one transposed-matrix build call: the dataset state after the
call (conditional rebuild, then `_pbSparseTransposedEnd` overwritten with a
copy of `_pbSparseTransposedStart`) and the kernel calls issued. -/
structure TransposedResult where
  state : NNDataSet
  calls : List KernelCall
  deriving DecidableEq, Repr

/-- Embedding of `NNDataSet<T>::CalculateSparseTransposedMatrix` (NNTypes.h
lines 567-597): rebuild the table when dirty or when the requested batch
differs from `_batch`, copy the start offsets into the end offsets, then
issue exactly one append kernel chosen by the Boolean and Indexed bits. -/
def CalculateSparseTransposedMatrix (ds : NNDataSet) (position batch : Nat) :
    TransposedResult :=
  let ds1 :=
    if ds.bDirty || batch != ds.batch then
      GenerateSparseTransposedMatrix ds batch
    else ds
  let ds2 := { ds1 with vSparseTransposedEnd := ds1.vSparseTransposedStart }
  let pDataWeight := pDataWeightArg ds2
  let pSparseTransposedData :=
    if testAttr ds2.attributes AttrWeighted
        || !testAttr ds2.attributes AttrBoolean then
      KArg.floatBuf ds2.vSparseTransposedData
    else KArg.nullPtr
  let call :=
    if testAttr ds2.attributes AttrBoolean then
      if testAttr ds2.attributes AttrIndexed then
        (⟨"kCalculateIndexedSparseTransposedMatrix",
          [KArg.nat position, KArg.nat batch, KArg.natBuf ds2.vIndex,
           KArg.natBuf ds2.vSparseStart, KArg.natBuf ds2.vSparseEnd,
           KArg.natBuf ds2.vSparseIndex, pDataWeight,
           KArg.natBuf ds2.vSparseTransposedEnd,
           KArg.natBuf ds2.vSparseTransposedIndex,
           pSparseTransposedData]⟩ : KernelCall)
      else
        ⟨"kCalculateSparseTransposedMatrix",
          [KArg.nat position, KArg.nat batch,
           KArg.natBuf ds2.vSparseStart, KArg.natBuf ds2.vSparseEnd,
           KArg.natBuf ds2.vSparseIndex, pDataWeight,
           KArg.natBuf ds2.vSparseTransposedEnd,
           KArg.natBuf ds2.vSparseTransposedIndex, pSparseTransposedData]⟩
    else
      if testAttr ds2.attributes AttrIndexed then
        ⟨"kCalculateIndexedSparseTransposedAnalogMatrix",
          [KArg.nat position, KArg.nat batch, KArg.natBuf ds2.vIndex,
           KArg.natBuf ds2.vSparseStart, KArg.natBuf ds2.vSparseEnd,
           KArg.natBuf ds2.vSparseIndex, pDataWeight,
           KArg.tBuf ds2.vSparseData,
           KArg.natBuf ds2.vSparseTransposedEnd,
           KArg.natBuf ds2.vSparseTransposedIndex, pSparseTransposedData]⟩
      else
        ⟨"kCalculateSparseTransposedAnalogMatrix",
          [KArg.nat position, KArg.nat batch,
           KArg.natBuf ds2.vSparseStart, KArg.natBuf ds2.vSparseEnd,
           KArg.natBuf ds2.vSparseIndex, pDataWeight,
           KArg.tBuf ds2.vSparseData,
           KArg.natBuf ds2.vSparseTransposedEnd,
           KArg.natBuf ds2.vSparseTransposedIndex, pSparseTransposedData]⟩
  ⟨ds2, [call]⟩

/-- Embedding of `NNDataSet<T>::CalculateSparseTransposedDenoisedMatrix`
(NNTypes.h lines 599-639): same structure as
`CalculateSparseTransposedMatrix` with the denoised kernel variants, which
additionally receive the denoising random buffer. -/
def CalculateSparseTransposedDenoisedMatrix (ds : NNDataSet)
    (position batch : Nat) : TransposedResult :=
  let ds1 :=
    if ds.bDirty || batch != ds.batch then
      GenerateSparseTransposedMatrix ds batch
    else ds
  let ds2 := { ds1 with vSparseTransposedEnd := ds1.vSparseTransposedStart }
  let pDataWeight := pDataWeightArg ds2
  let pSparseTransposedData :=
    if testAttr ds2.attributes AttrWeighted
        || !testAttr ds2.attributes AttrBoolean then
      KArg.floatBuf ds2.vSparseTransposedData
    else KArg.nullPtr
  let call :=
    if testAttr ds2.attributes AttrBoolean then
      if testAttr ds2.attributes AttrIndexed then
        (⟨"kCalculateIndexedSparseTransposedDenoisedMatrix",
          [KArg.nat position, KArg.nat batch, KArg.natBuf ds2.vIndex,
           KArg.natBuf ds2.vSparseStart, KArg.natBuf ds2.vSparseEnd,
           KArg.natBuf ds2.vSparseIndex, pDataWeight,
           KArg.floatBuf ds2.vDenoisingRandom,
           KArg.natBuf ds2.vSparseTransposedEnd,
           KArg.natBuf ds2.vSparseTransposedIndex,
           pSparseTransposedData]⟩ : KernelCall)
      else
        ⟨"kCalculateSparseTransposedDenoisedMatrix",
          [KArg.nat position, KArg.nat batch,
           KArg.natBuf ds2.vSparseStart, KArg.natBuf ds2.vSparseEnd,
           KArg.natBuf ds2.vSparseIndex, pDataWeight,
           KArg.floatBuf ds2.vDenoisingRandom,
           KArg.natBuf ds2.vSparseTransposedEnd,
           KArg.natBuf ds2.vSparseTransposedIndex, pSparseTransposedData]⟩
    else
      if testAttr ds2.attributes AttrIndexed then
        ⟨"kCalculateIndexedSparseTransposedAnalogDenoisedMatrix",
          [KArg.nat position, KArg.nat batch, KArg.natBuf ds2.vIndex,
           KArg.natBuf ds2.vSparseStart, KArg.natBuf ds2.vSparseEnd,
           KArg.natBuf ds2.vSparseIndex, pDataWeight,
           KArg.tBuf ds2.vSparseData,
           KArg.floatBuf ds2.vDenoisingRandom,
           KArg.natBuf ds2.vSparseTransposedEnd,
           KArg.natBuf ds2.vSparseTransposedIndex, pSparseTransposedData]⟩
      else
        ⟨"kCalculateSparseTransposedAnalogDenoisedMatrix",
          [KArg.nat position, KArg.nat batch,
           KArg.natBuf ds2.vSparseStart, KArg.natBuf ds2.vSparseEnd,
           KArg.natBuf ds2.vSparseIndex, pDataWeight,
           KArg.tBuf ds2.vSparseData,
           KArg.floatBuf ds2.vDenoisingRandom,
           KArg.natBuf ds2.vSparseTransposedEnd,
           KArg.natBuf ds2.vSparseTransposedIndex, pSparseTransposedData]⟩
  ⟨ds2, [call]⟩

/-- Kernel calls issued by a dispatch outcome, in order; a fatal outcome
issues none. -/
def callsOf (r : DispatchResult) : List KernelCall :=
  match r with
  | DispatchResult.calls cs => cs
  | DispatchResult.fatal _ => []

/-- Kernel names selected by a dispatch outcome, in call order. -/
def kernelNames (r : DispatchResult) : List String :=
  (callsOf r).map KernelCall.kernel

/-- Boolean scalar arguments of a kernel call, in order.  In the error and
output-delta dispatchers the only Boolean scalar a kernel receives is the
`bSparseIgnoreZero` flag. -/
def boolScalarArgs (c : KernelCall) : List Bool :=
  c.args.filterMap (fun a =>
    match a with
    | KArg.bool b => some b
    | _ => none)

/-- Boolean scalar arguments across all kernel calls of a dispatch outcome. -/
def boolScalarArgsR (r : DispatchResult) : List Bool :=
  ((callsOf r).map boolScalarArgs).flatten

/-- Floating-point scalar arguments of a kernel call, in order.  In the
output-delta dispatchers the only such scalars a kernel receives are
`slope`, `alpha` and `lambda`. -/
def floatScalarArgs (c : KernelCall) : List NNFloat :=
  c.args.filterMap (fun a =>
    match a with
    | KArg.float x => some x
    | _ => none)

/-- Floating-point scalar arguments across all kernel calls of a dispatch
outcome. -/
def floatScalarArgsR (r : DispatchResult) : List NNFloat :=
  ((callsOf r).map floatScalarArgs).flatten

/-- Arguments across all kernel calls of a dispatch outcome, in order. -/
def argsR (r : DispatchResult) : List KArg :=
  ((callsOf r).map KernelCall.args).flatten

/-- Sample dataset with the given attribute bitset, used to instantiate the
universally quantified theorems below at concrete inputs: one example whose
single sparse datapoint sits at column 1 with analog value 3, dense payload
`[7, 0]`, per-example weight 5. -/
def sampleDataSet (attributes : Nat) : NNDataSet :=
  { attributes := attributes
    width := 2
    vData := [7, 0]
    vSparseStart := [0]
    vSparseEnd := [1]
    vSparseIndex := [1]
    vSparseData := [3]
    vDataWeight := [5]
    vIndex := [0]
    vDenoisingRandom := [1]
    vSparseTransposedStart := [0, 0]
    vSparseTransposedEnd := [0, 0]
    vSparseTransposedIndex := [0]
    vSparseTransposedData := [0]
    bDirty := true
    batch := 0 }

/-- C4: invoking `CalculateDataScaledMarginalCrossEntropyError` or
`CalculateDataScaledMarginalCrossEntropyOutputDelta` on a dataset without
the Sparse attribute is a fatal configuration error: the mismatch is
reported and the process terminated (the log-and-exit path), rather than
returning a value or computing a wrong answer. -/
theorem C4_data_scaled_fatal_on_dense
    (ds : NNDataSet) (activation : Activation)
    (position batch stride : Nat) (pUnit pDelta : List NNFloat)
    (h : testAttr ds.attributes AttrSparse = false) :
    CalculateDataScaledMarginalCrossEntropyError ds position batch stride
        pUnit
      = DispatchResult.fatal "unsupported data format of this cost function" ∧
    CalculateDataScaledMarginalCrossEntropyOutputDelta ds activation position
        batch stride pUnit pDelta
      = DispatchResult.fatal "unsupported data format of this cost function" := by
  constructor
  · simp [CalculateDataScaledMarginalCrossEntropyError, h]
  · simp [CalculateDataScaledMarginalCrossEntropyOutputDelta, h]

/-- Witness for C4 at a concrete dense dataset (attribute bitset 0). -/
theorem C4_data_scaled_fatal_on_dense_witness :
    CalculateDataScaledMarginalCrossEntropyError (sampleDataSet 0) 0 1 2 [1]
      = DispatchResult.fatal "unsupported data format of this cost function" ∧
    CalculateDataScaledMarginalCrossEntropyOutputDelta (sampleDataSet 0)
        Activation.Sigmoid 0 1 2 [1] [0]
      = DispatchResult.fatal "unsupported data format of this cost function" :=
  C4_data_scaled_fatal_on_dense (sampleDataSet 0) Activation.Sigmoid 0 1 2
    [1] [0] (by decide)

/-- C9: on a dataset with both the Sparse and Boolean attributes,
`CalculateDataScaledMarginalCrossEntropyError` performs exactly the dispatch
of `CalculateScaledMarginalCrossEntropyError`: the identical
scaled-marginal-cross-entropy kernel with identical arguments (the comment
in the source reads "Scale by 1 if data is Boolean"), hence the same
returned value for any kernel semantics. -/
theorem C9_data_scaled_boolean_equals_scaled_marginal
    (ds : NNDataSet) (position batch stride : Nat) (pUnit : List NNFloat)
    (hs : testAttr ds.attributes AttrSparse = true)
    (hb : testAttr ds.attributes AttrBoolean = true) :
    CalculateDataScaledMarginalCrossEntropyError ds position batch stride
        pUnit =
    CalculateScaledMarginalCrossEntropyError ds position batch stride
        pUnit := by
  cases hi : testAttr ds.attributes AttrIndexed <;>
    simp [CalculateDataScaledMarginalCrossEntropyError,
      CalculateScaledMarginalCrossEntropyError, hs, hb, hi]

/-- Witness for C9 at a concrete sparse Boolean dataset (attribute bitset
`Sparse ||| Boolean = 3`). -/
theorem C9_data_scaled_boolean_equals_scaled_marginal_witness :
    CalculateDataScaledMarginalCrossEntropyError (sampleDataSet 3) 0 1 2 [1] =
    CalculateScaledMarginalCrossEntropyError (sampleDataSet 3) 0 1 2 [1] :=
  C9_data_scaled_boolean_equals_scaled_marginal (sampleDataSet 3) 0 1 2 [1]
    (by decide) (by decide)

/-- C10: the data-scaled-marginal-cross-entropy path of a sparse analog
(non-Boolean) dataset ignores the per-example weights: changing only the
`_vDataWeight` array — whether or not the Weighted attribute is set —
changes neither the kernel invocation of
`CalculateDataScaledMarginalCrossEntropyError` nor that of
`CalculateDataScaledMarginalCrossEntropyOutputDelta`, since neither passes
the weight buffer to its kernel. -/
theorem C10_data_scaled_ignores_data_weight
    (ds : NNDataSet) (w : List NNFloat) (activation : Activation)
    (position batch stride : Nat) (pUnit pDelta : List NNFloat)
    (hs : testAttr ds.attributes AttrSparse = true)
    (hb : testAttr ds.attributes AttrBoolean = false) :
    CalculateDataScaledMarginalCrossEntropyError
        { ds with vDataWeight := w } position batch stride pUnit =
      CalculateDataScaledMarginalCrossEntropyError ds position batch stride
        pUnit ∧
    CalculateDataScaledMarginalCrossEntropyOutputDelta
        { ds with vDataWeight := w } activation position batch stride pUnit
        pDelta =
      CalculateDataScaledMarginalCrossEntropyOutputDelta ds activation
        position batch stride pUnit pDelta := by
  cases hi : testAttr ds.attributes AttrIndexed <;>
    exact ⟨by simp [CalculateDataScaledMarginalCrossEntropyError, hs, hb, hi],
      by simp [CalculateDataScaledMarginalCrossEntropyOutputDelta, hs, hi]⟩

/-- Witness for C10 at a concrete sparse analog weighted dataset (attribute
bitset `Sparse ||| Weighted = 129`), replacing its weight array `[5]` by
`[9]`. -/
theorem C10_data_scaled_ignores_data_weight_witness :
    CalculateDataScaledMarginalCrossEntropyError
        { sampleDataSet 129 with vDataWeight := [9] } 0 1 2 [1] =
      CalculateDataScaledMarginalCrossEntropyError (sampleDataSet 129) 0 1 2
        [1] ∧
    CalculateDataScaledMarginalCrossEntropyOutputDelta
        { sampleDataSet 129 with vDataWeight := [9] } Activation.Sigmoid 0 1
        2 [1] [0] =
      CalculateDataScaledMarginalCrossEntropyOutputDelta (sampleDataSet 129)
        Activation.Sigmoid 0 1 2 [1] [0] :=
  C10_data_scaled_ignores_data_weight (sampleDataSet 129) [9]
    Activation.Sigmoid 0 1 2 [1] [0] (by decide) (by decide)

/-- C5 counterexample: on a concrete dataset whose attribute bitset contains
exactly the Sparse bit, `CalculateHingeError` and
`CalculateHingeOutputDelta` do not fail fast: each issues its dense-data
kernel, reading the dense buffer `_pbData`, exactly as for a dense
dataset. -/
theorem C5_hinge_on_sparse_proceeds_counterexample :
    CalculateHingeError (sampleDataSet AttrSparse) 0 1 2 [1] =
      DispatchResult.calls [⟨"kCalculateHingeError",
        [KArg.nat 0, KArg.nat 1, KArg.nat 2, KArg.floatBuf [1],
         KArg.tBuf [7, 0], KArg.nullPtr]⟩] ∧
    CalculateHingeOutputDelta (sampleDataSet AttrSparse) Activation.Sigmoid
        0 1 2 [1] [0] =
      DispatchResult.calls [⟨"kCalculateHingeOutputDelta",
        [KArg.act Activation.Sigmoid, KArg.nat 0, KArg.nat 1, KArg.nat 2,
         KArg.floatBuf [1], KArg.floatBuf [0],
         KArg.tBuf [7, 0], KArg.nullPtr]⟩] := by
  constructor
  · rfl
  · rfl

/-- C5 (amended): `CalculateHingeError` and `CalculateHingeOutputDelta`
never inspect the Sparse attribute and never fail fast: for every dataset —
sparse ones included — each issues exactly one dense-data kernel, chosen
only by the Indexed bit, that reads the dense data buffer `_pbData`. -/
theorem C5_hinge_ignores_sparse_attribute
    (ds : NNDataSet) (activation : Activation) (position batch stride : Nat)
    (pUnit pDelta : List NNFloat) :
    kernelNames (CalculateHingeError ds position batch stride pUnit) =
      [if testAttr ds.attributes AttrIndexed then "kCalculateIndexedHingeError"
       else "kCalculateHingeError"] ∧
    KArg.tBuf ds.vData ∈
      argsR (CalculateHingeError ds position batch stride pUnit) ∧
    kernelNames (CalculateHingeOutputDelta ds activation position batch
        stride pUnit pDelta) =
      [if testAttr ds.attributes AttrIndexed then
        "kCalculateIndexedHingeOutputDelta"
       else "kCalculateHingeOutputDelta"] ∧
    KArg.tBuf ds.vData ∈
      argsR (CalculateHingeOutputDelta ds activation position batch stride
        pUnit pDelta) := by
  cases hi : testAttr ds.attributes AttrIndexed <;>
    refine ⟨?_, ?_, ?_, ?_⟩ <;>
      simp [CalculateHingeError, CalculateHingeOutputDelta, kernelNames,
        callsOf, argsR, hi]

/-- C7: every sparse error dispatcher among L1, L2, L2-Hinge, Cross-Entropy
and Scaled-Marginal-Cross-Entropy passes exactly one Boolean flag to its
kernel — the ignore-absent-entries flag — and that flag is true exactly
when the dataset's SparseIgnoreZero attribute bit is set. -/
theorem C7_sparse_ignore_zero_flag_forwarded
    (ds : NNDataSet) (position batch stride : Nat) (pUnit : List NNFloat)
    (hs : testAttr ds.attributes AttrSparse = true) :
    boolScalarArgsR (CalculateL1Error ds position batch stride pUnit) =
      [testAttr ds.attributes AttrSparseIgnoreZero] ∧
    boolScalarArgsR (CalculateL2Error ds position batch stride pUnit) =
      [testAttr ds.attributes AttrSparseIgnoreZero] ∧
    boolScalarArgsR (CalculateL2HingeError ds position batch stride pUnit) =
      [testAttr ds.attributes AttrSparseIgnoreZero] ∧
    boolScalarArgsR (CalculateCrossEntropyError ds position batch stride
        pUnit) =
      [testAttr ds.attributes AttrSparseIgnoreZero] ∧
    boolScalarArgsR (CalculateScaledMarginalCrossEntropyError ds position
        batch stride pUnit) =
      [testAttr ds.attributes AttrSparseIgnoreZero] := by
  cases hb : testAttr ds.attributes AttrBoolean <;>
  cases hi : testAttr ds.attributes AttrIndexed <;>
  cases hw : testAttr ds.attributes AttrWeighted <;>
    refine ⟨?_, ?_, ?_, ?_, ?_⟩ <;>
      simp [CalculateL1Error, CalculateL2Error, CalculateL2HingeError,
        CalculateCrossEntropyError, CalculateScaledMarginalCrossEntropyError,
        boolScalarArgsR, boolScalarArgs, callsOf, pDataWeightArg,
        hs, hb, hi, hw]

/-- Witness for C7 at a concrete dataset with the Sparse and
SparseIgnoreZero bits set (attribute bitset `Sparse ||| SparseIgnoreZero =
33`). -/
theorem C7_sparse_ignore_zero_flag_forwarded_witness :
    boolScalarArgsR (CalculateL1Error (sampleDataSet 33) 0 1 2 [1]) =
      [testAttr (sampleDataSet 33).attributes AttrSparseIgnoreZero] ∧
    boolScalarArgsR (CalculateL2Error (sampleDataSet 33) 0 1 2 [1]) =
      [testAttr (sampleDataSet 33).attributes AttrSparseIgnoreZero] ∧
    boolScalarArgsR (CalculateL2HingeError (sampleDataSet 33) 0 1 2 [1]) =
      [testAttr (sampleDataSet 33).attributes AttrSparseIgnoreZero] ∧
    boolScalarArgsR (CalculateCrossEntropyError (sampleDataSet 33) 0 1 2
        [1]) =
      [testAttr (sampleDataSet 33).attributes AttrSparseIgnoreZero] ∧
    boolScalarArgsR (CalculateScaledMarginalCrossEntropyError
        (sampleDataSet 33) 0 1 2 [1]) =
      [testAttr (sampleDataSet 33).attributes AttrSparseIgnoreZero] :=
  C7_sparse_ignore_zero_flag_forwarded (sampleDataSet 33) 0 1 2 [1]
    (by decide)

/-- C8: on every dispatch branch of `CalculateL1OutputDelta`,
`CalculateOutputDelta` and `CalculateL2HingeOutputDelta`, the scalar
activation-shaping parameters received by the dispatcher are forwarded to
the selected kernel unchanged: the floating-point scalars the kernel
receives are exactly `slope`, `alpha`, `lambda`, in that order. -/
theorem C8_slope_alpha_lambda_forwarded
    (ds : NNDataSet) (activation : Activation) (position batch stride : Nat)
    (pUnit pDelta : List NNFloat) (slope alpha lambda : NNFloat) :
    floatScalarArgsR (CalculateL1OutputDelta ds activation position batch
        stride pUnit pDelta slope alpha lambda) = [slope, alpha, lambda] ∧
    floatScalarArgsR (CalculateOutputDelta ds activation position batch
        stride pUnit pDelta slope alpha lambda) = [slope, alpha, lambda] ∧
    floatScalarArgsR (CalculateL2HingeOutputDelta ds activation position
        batch stride pUnit pDelta slope alpha lambda) =
      [slope, alpha, lambda] := by
  cases hs : testAttr ds.attributes AttrSparse <;>
  cases hb : testAttr ds.attributes AttrBoolean <;>
  cases hi : testAttr ds.attributes AttrIndexed <;>
  cases hw : testAttr ds.attributes AttrWeighted <;>
    refine ⟨?_, ?_, ?_⟩ <;>
      simp [CalculateL1OutputDelta, CalculateOutputDelta,
        CalculateL2HingeOutputDelta, floatScalarArgsR, floatScalarArgs,
        callsOf, pDataWeightArg, hs, hb, hi, hw]

/-- C3: for every attribute bitset, `CalculateL2Error` and
`CalculateOutputDelta` each issue exactly one compute kernel (no attribute
combination reaches two kernels or falls through without one); the weight
buffer argument the kernel receives is the data-weight buffer exactly when
the Weighted bit is set and `NULL` otherwise; and the selected kernel is
determined only by the Sparse, Boolean and Indexed bits: two datasets whose
attribute bitsets agree on those three bits select the same kernels. -/
theorem C3_dispatch_total_single_kernel
    (ds₁ ds₂ : NNDataSet) (activation : Activation)
    (position batch stride : Nat) (pUnit pDelta : List NNFloat)
    (slope alpha lambda : NNFloat) :
    ((callsOf (CalculateL2Error ds₁ position batch stride pUnit)).length = 1 ∧
     (callsOf (CalculateOutputDelta ds₁ activation position batch stride
        pUnit pDelta slope alpha lambda)).length = 1) ∧
    ((if testAttr ds₁.attributes AttrWeighted then
        KArg.floatBuf ds₁.vDataWeight
      else KArg.nullPtr) ∈
        argsR (CalculateL2Error ds₁ position batch stride pUnit) ∧
     (if testAttr ds₁.attributes AttrWeighted then
        KArg.floatBuf ds₁.vDataWeight
      else KArg.nullPtr) ∈
        argsR (CalculateOutputDelta ds₁ activation position batch stride
          pUnit pDelta slope alpha lambda)) ∧
    (testAttr ds₁.attributes AttrSparse = testAttr ds₂.attributes AttrSparse →
     testAttr ds₁.attributes AttrBoolean =
       testAttr ds₂.attributes AttrBoolean →
     testAttr ds₁.attributes AttrIndexed =
       testAttr ds₂.attributes AttrIndexed →
     kernelNames (CalculateL2Error ds₁ position batch stride pUnit) =
       kernelNames (CalculateL2Error ds₂ position batch stride pUnit) ∧
     kernelNames (CalculateOutputDelta ds₁ activation position batch stride
        pUnit pDelta slope alpha lambda) =
       kernelNames (CalculateOutputDelta ds₂ activation position batch
        stride pUnit pDelta slope alpha lambda)) := by
  refine ⟨⟨?_, ?_⟩, ⟨?_, ?_⟩, ?_⟩
  · cases hs : testAttr ds₁.attributes AttrSparse <;>
    cases hb : testAttr ds₁.attributes AttrBoolean <;>
    cases hi : testAttr ds₁.attributes AttrIndexed <;>
      simp [CalculateL2Error, callsOf, hs, hb, hi]
  · cases hs : testAttr ds₁.attributes AttrSparse <;>
    cases hb : testAttr ds₁.attributes AttrBoolean <;>
    cases hi : testAttr ds₁.attributes AttrIndexed <;>
      simp [CalculateOutputDelta, callsOf, hs, hb, hi]
  · cases hs : testAttr ds₁.attributes AttrSparse <;>
    cases hb : testAttr ds₁.attributes AttrBoolean <;>
    cases hi : testAttr ds₁.attributes AttrIndexed <;>
      simp [CalculateL2Error, argsR, callsOf, pDataWeightArg, hs, hb, hi]
  · cases hs : testAttr ds₁.attributes AttrSparse <;>
    cases hb : testAttr ds₁.attributes AttrBoolean <;>
    cases hi : testAttr ds₁.attributes AttrIndexed <;>
      simp [CalculateOutputDelta, argsR, callsOf, pDataWeightArg, hs, hb, hi]
  · intro h1 h2 h3
    cases hs : testAttr ds₁.attributes AttrSparse <;>
    cases hb : testAttr ds₁.attributes AttrBoolean <;>
    cases hi : testAttr ds₁.attributes AttrIndexed <;>
      exact ⟨by simp [CalculateL2Error, kernelNames, callsOf, hs, hb, hi,
              h1 ▸ hs, h2 ▸ hb, h3 ▸ hi],
            by simp [CalculateOutputDelta, kernelNames, callsOf, hs, hb, hi,
              h1 ▸ hs, h2 ▸ hb, h3 ▸ hi]⟩

/-- Witness for C3: two concrete sparse analog datasets agreeing on the
Sparse, Boolean and Indexed bits but differing on the Weighted bit
(bitsets 1 and 129) select the same kernels. -/
theorem C3_dispatch_total_single_kernel_witness :
    kernelNames (CalculateL2Error (sampleDataSet 1) 0 1 2 [1]) =
      kernelNames (CalculateL2Error (sampleDataSet 129) 0 1 2 [1]) ∧
    kernelNames (CalculateOutputDelta (sampleDataSet 1) Activation.Sigmoid
        0 1 2 [1] [0] 0 0 0) =
      kernelNames (CalculateOutputDelta (sampleDataSet 129)
        Activation.Sigmoid 0 1 2 [1] [0] 0 0 0) :=
  (C3_dispatch_total_single_kernel (sampleDataSet 1) (sampleDataSet 129)
    Activation.Sigmoid 0 1 2 [1] [0] 0 0 0).2.2
    (by decide) (by decide) (by decide)

/-- C6: each call to `CalculateSparseTransposedMatrix` and
`CalculateSparseTransposedDenoisedMatrix` rebuilds the transposed
start-offsets via `GenerateSparseTransposedMatrix` exactly when the dirty
flag is set or the requested batch differs from the last-built batch (and
leaves them untouched otherwise); then, in every call, the transposed end
offsets are reset to a copy of the (possibly rebuilt) transposed start
offsets before exactly one append kernel is invoked. -/
theorem C6_transposed_rebuild_reset_single_kernel
    (ds : NNDataSet) (position batch : Nat) :
    (ds.bDirty = false → batch = ds.batch →
      (CalculateSparseTransposedMatrix ds position batch).state =
        { ds with vSparseTransposedEnd := ds.vSparseTransposedStart } ∧
      (CalculateSparseTransposedDenoisedMatrix ds position batch).state =
        { ds with vSparseTransposedEnd := ds.vSparseTransposedStart }) ∧
    (ds.bDirty = true ∨ batch ≠ ds.batch →
      (CalculateSparseTransposedMatrix ds position batch).state =
        { GenerateSparseTransposedMatrix ds batch with
          vSparseTransposedEnd :=
            (GenerateSparseTransposedMatrix ds batch).vSparseTransposedStart } ∧
      (CalculateSparseTransposedDenoisedMatrix ds position batch).state =
        { GenerateSparseTransposedMatrix ds batch with
          vSparseTransposedEnd :=
            (GenerateSparseTransposedMatrix ds batch).vSparseTransposedStart }) ∧
    (CalculateSparseTransposedMatrix ds position
        batch).state.vSparseTransposedEnd =
      (CalculateSparseTransposedMatrix ds position
        batch).state.vSparseTransposedStart ∧
    (CalculateSparseTransposedDenoisedMatrix ds position
        batch).state.vSparseTransposedEnd =
      (CalculateSparseTransposedDenoisedMatrix ds position
        batch).state.vSparseTransposedStart ∧
    (CalculateSparseTransposedMatrix ds position batch).calls.length = 1 ∧
    (CalculateSparseTransposedDenoisedMatrix ds position batch).calls.length
      = 1 := by
  refine ⟨?_, ?_, rfl, rfl, rfl, rfl⟩
  · intro hd he
    constructor <;>
      simp [CalculateSparseTransposedMatrix,
        CalculateSparseTransposedDenoisedMatrix, hd, he]
  · intro h
    have hc : (ds.bDirty || batch != ds.batch) = true := by
      rcases h with hd | hne
      · simp [hd]
      · simp [hne]
    constructor <;>
      simp [CalculateSparseTransposedMatrix,
        CalculateSparseTransposedDenoisedMatrix, hc]

/-- Witness for C6: the rebuild branch at a concrete dirty sparse dataset
(bitset 1, `_bDirty = true`) and the no-rebuild branch at the same dataset
with the dirty flag cleared and the last-built batch requested again. -/
theorem C6_transposed_rebuild_reset_single_kernel_witness :
    ((CalculateSparseTransposedMatrix (sampleDataSet 1) 0 1).state =
      { GenerateSparseTransposedMatrix (sampleDataSet 1) 1 with
        vSparseTransposedEnd :=
          (GenerateSparseTransposedMatrix (sampleDataSet 1)
            1).vSparseTransposedStart } ∧
     (CalculateSparseTransposedDenoisedMatrix (sampleDataSet 1) 0 1).state =
      { GenerateSparseTransposedMatrix (sampleDataSet 1) 1 with
        vSparseTransposedEnd :=
          (GenerateSparseTransposedMatrix (sampleDataSet 1)
            1).vSparseTransposedStart }) ∧
    ((CalculateSparseTransposedMatrix
        { sampleDataSet 1 with bDirty := false } 0 0).state =
      { { sampleDataSet 1 with bDirty := false } with
        vSparseTransposedEnd :=
          ({ sampleDataSet 1 with
            bDirty := false } : NNDataSet).vSparseTransposedStart } ∧
     (CalculateSparseTransposedDenoisedMatrix
        { sampleDataSet 1 with bDirty := false } 0 0).state =
      { { sampleDataSet 1 with bDirty := false } with
        vSparseTransposedEnd :=
          ({ sampleDataSet 1 with
            bDirty := false } : NNDataSet).vSparseTransposedStart }) :=
  ⟨(C6_transposed_rebuild_reset_single_kernel (sampleDataSet 1) 0 1).2.1
      (Or.inl rfl),
   (C6_transposed_rebuild_reset_single_kernel
      { sampleDataSet 1 with bDirty := false } 0 0).1 rfl rfl⟩

